import Mathlib

/-!
Verification of the client-side coordination core of the Multi-Agent
Decision System frontend: the conversation session manager (zustand chat
store), the dataset-version lineage driven by the preprocessing tabs, and
the analysis tab coordinators (A/B test, EDA, AI preprocess).

All definitions are shallow embeddings of the JavaScript/JSX source:
  - frontend/src/stores/chatStore.js (reproduced in the repository README)
  - frontend/src/pages/ChatPage.jsx (handleSubmit)
  - frontend/src/pages/AnalysisDashboardPage.jsx (overallConfidence)
  - frontend/src/pages/DataAnalysisPage.jsx (upload / tab wiring)
  - frontend/src/components/analysis/PreprocessTab.jsx (handleProcess)
  - frontend/src/components/analysis/AIPreprocessTab.jsx (executeCode)
  - frontend/src/components/analysis/ABTestTab.jsx (runTest)

JavaScript numbers that carry confidences are modelled as rationals,
machine strings as Lean strings, and absent/undefined JSON fields as
Option values.  JS truthiness on strings (null, undefined and the empty
string are falsy) is made explicit where the source branches on it.
-/

namespace ChatCore

/-- Role of a chat message: the store only ever appends messages with
role 'user' or 'assistant'. -/
inductive Role where
  | user
  | assistant
deriving DecidableEq, Repr

instance : BEq Role := ⟨fun a b => decide (a = b)⟩

/-- One agent's step in a turn, as carried by the chat response
(fields agent_name, confidence, duration_ms, result). -/
structure AgentStep where
  agent_name : String
  confidence : ℚ
  duration_ms : ℕ
  result : String
deriving DecidableEq, Repr

/-- A chat message as appended by chatStore.addMessage.  The user
message carries only role/content/timestamp; the assistant success
message also carries confidence, agentSteps and visualizations; the
assistant failure message sets isError.  Fields that a given call site
does not supply are undefined in JS and are modelled as Option/false. -/
structure Message where
  role : Role
  content : String
  timestamp : String
  confidence : Option ℚ := none
  agentSteps : Option (List AgentStep) := none
  visualizations : Option (List String) := none
  isError : Bool := false
deriving DecidableEq, Repr

/-- The zustand chat store state (chatStore.js): messages, isLoading,
currentSessionId, agentSteps, executionOrder, visualizations, error. -/
structure ChatState where
  messages : List Message
  isLoading : Bool
  currentSessionId : Option String
  agentSteps : List AgentStep
  executionOrder : List String
  visualizations : List String
  error : Option String
deriving DecidableEq, Repr

/-- The store's initial state (chatStore.js, create call). -/
def initialChatState : ChatState :=
  { messages := []
    isLoading := false
    currentSessionId := none
    agentSteps := []
    executionOrder := []
    visualizations := []
    error := none }

/-- chatStore.addMessage: appends one message to the log
(messages: [...state.messages, message]). -/
def addMessage (st : ChatState) (m : Message) : ChatState :=
  { st with messages := st.messages ++ [m] }

/-- chatStore.clearMessages:
set({ messages: [], agentSteps: [], visualizations: [], executionOrder: [] }).
zustand's set merges the partial state, so every other field is kept. -/
def clearMessages (st : ChatState) : ChatState :=
  { st with messages := [], agentSteps := [], visualizations := [], executionOrder := [] }

/-- The JSON body of a successful /api/chat response, with absent fields
as none (the store guards each field with a JS truthiness test). -/
structure ChatResponse where
  session_id : Option String
  answer : String
  confidence : Option ℚ
  agent_steps : Option (List AgentStep)
  execution_order : Option (List String)
  visualizations : Option (List String)
deriving DecidableEq, Repr

/-- Outcome of the awaited fetch in sendMessage: either the parsed JSON
of an ok response, or the thrown error's message (network failure, or
the 'API request failed' Error thrown on a non-ok status). -/
inductive RemoteOutcome where
  | success (data : ChatResponse)
  | failure (errMessage : String)
deriving DecidableEq, Repr

/-- JS truthiness of an optional string: null/undefined and the empty
string are falsy, every other string is truthy. -/
def jsTruthyStr : Option String → Bool
  | some s => !(s == "")
  | none => false

/-- JS String.prototype.trim as used by handleSubmit: drops leading and
trailing whitespace characters. -/
def jsTrim (s : String) : String :=
  String.mk (((s.data.dropWhile Char.isWhitespace).reverse.dropWhile Char.isWhitespace).reverse)

/-- The user message appended synchronously at the top of sendMessage. -/
def mkUserMessage (query : String) (now : String) : Message :=
  { role := Role.user, content := query, timestamp := now }

/-- The assistant message appended on the success path of sendMessage. -/
def mkAssistantMessage (data : ChatResponse) (now : String) : Message :=
  { role := Role.assistant
    content := data.answer
    confidence := data.confidence
    agentSteps := data.agent_steps
    visualizations := data.visualizations
    timestamp := now }

/-- The assistant message appended in the catch branch of sendMessage. -/
def mkErrorMessage (errMessage : String) (now : String) : Message :=
  { role := Role.assistant
    content := "오류가 발생했습니다: " ++ errMessage
    isError := true
    timestamp := now }

/-- chatStore.sendMessage.  Appends the user message, sets
isLoading/error, awaits the remote call (its outcome is passed in), then
either stores the response fields (each guarded as in the source) and
appends the assistant answer, or on a thrown error sets the error field
and appends an isError message; finally clears isLoading.  The two
Date().toISOString() reads are passed in as nowUser/nowAssistant. -/
def sendMessage (st : ChatState) (query : String) (outcome : RemoteOutcome)
    (nowUser nowAssistant : String) : ChatState :=
  let st1 := addMessage st (mkUserMessage query nowUser)
  let st2 := { st1 with isLoading := true, error := none }
  match outcome with
  | RemoteOutcome.failure errMessage =>
      let st3 := { st2 with error := some errMessage }
      let st4 := addMessage st3 (mkErrorMessage errMessage nowAssistant)
      { st4 with isLoading := false }
  | RemoteOutcome.success data =>
      let st3 := if jsTruthyStr data.session_id then
          { st2 with currentSessionId := data.session_id } else st2
      let st4 := match data.agent_steps with
        | some steps => { st3 with agentSteps := steps }
        | none => st3
      let st5 := match data.execution_order with
        | some ord => { st4 with executionOrder := ord }
        | none => st4
      let st6 := match data.visualizations with
        | some vs => { st5 with visualizations := vs }
        | none => st5
      let st7 := addMessage st6 (mkAssistantMessage data nowAssistant)
      { st7 with isLoading := false }

/-- Result of one submit attempt from the chat page: the store state
afterwards, whether sendMessage (and hence the remote call) was invoked,
and the input box contents afterwards. -/
structure SubmitResult where
  state : ChatState
  remoteCalled : Bool
  inputAfter : String
deriving DecidableEq, Repr

/-- ChatPage.handleSubmit: returns without doing anything if the trimmed
input is empty (JS falsy) or isLoading is set; otherwise clears the
input box and runs sendMessage on the trimmed query. -/
def handleSubmit (input : String) (st : ChatState) (outcome : RemoteOutcome)
    (nowUser nowAssistant : String) : SubmitResult :=
  if jsTrim input == "" || st.isLoading then
    { state := st, remoteCalled := false, inputAfter := input }
  else
    { state := sendMessage st (jsTrim input) outcome nowUser nowAssistant
      remoteCalled := true
      inputAfter := "" }

/-- AnalysisDashboardPage: the derived overall confidence,
[...messages].reverse().find(m => m.role === 'assistant')?.confidence || 0. -/
def overallConfidence (messages : List Message) : ℚ :=
  match messages.reverse.find? (fun m => m.role == Role.assistant) with
  | some m => m.confidence.getD 0
  | none => 0

/-- C6 counterexample state: a session that has just seen a failure. -/
def demoErrorState : ChatState :=
  { messages := []
    isLoading := false
    currentSessionId := some "S1"
    agentSteps := []
    executionOrder := []
    visualizations := []
    error := some "boom" }

/-- The concrete turn of the C8 scenario: one calculator step with
confidence 0.9 and 120ms, answer confidence 0.9. -/
def demoChatResponse : ChatResponse :=
  { session_id := some "S1"
    answer := "the final answer"
    confidence := some (9/10)
    agent_steps := some
      [{ agent_name := "calculator", confidence := 9/10, duration_ms := 120,
         result := "calc result" }]
    execution_order := some ["calculator"]
    visualizations := none }

/-- A one-element assistant log used by the C8 witness. -/
def demoAssistantMessage : Message :=
  { role := Role.assistant, content := "a", timestamp := "t", confidence := some (2/5) }

/-- The single message a completed turn appends after the user message:
the assistant answer on success, the error message on failure. -/
def turnResponseMessage (outcome : RemoteOutcome) (now : String) : Message :=
  match outcome with
  | RemoteOutcome.success data => mkAssistantMessage data now
  | RemoteOutcome.failure e => mkErrorMessage e now

end ChatCore

namespace DataCore

/-- The uploaded-file record held by DataAnalysisPage (upload response
fields the pointer logic touches): the page treats file_id as the
identity of the working dataset. -/
structure UploadedFile where
  file_id : String
  filename : String
deriving DecidableEq, Repr

/-- JSON body of /api/analysis/ai-preprocess/execute-code: success flag,
the id of the derived dataset on success, an error message on failure. -/
structure ExecuteCodeResponse where
  success : Bool
  new_file_id : Option String
  error : Option String
deriving DecidableEq, Repr

/-- Outcome of the awaited fetch in AIPreprocessTab.executeCode: the
parsed JSON, or a thrown error (network failure / invalid JSON) caught
by the catch branch. -/
inductive ExecOutcome where
  | response (data : ExecuteCodeResponse)
  | thrown (errMessage : String)
deriving DecidableEq, Repr

/-- Effect of AIPreprocessTab.executeCode on the page's working file:
after the response arrives, onFileIdChange(data.new_file_id) is invoked
iff data.success, data.new_file_id and the onFileIdChange prop are all
JS-truthy; in every other case (including the catch branch) the page
file is left alone. -/
def executeCodeUpdate (onFileIdChange : Option (String → UploadedFile → UploadedFile))
    (outcome : ExecOutcome) (f : UploadedFile) : UploadedFile :=
  match outcome with
  | ExecOutcome.thrown _ => f
  | ExecOutcome.response data =>
      match data.new_file_id, onFileIdChange with
      | some newId, some cb =>
          if data.success && !(newId == "") then cb newId f else f
      | _, _ => f

/-- DataAnalysisPage renders the AI preprocess tab as
AIPreprocessTab fileId=uploadedFile.file_id with no onFileIdChange prop,
so inside the component the callback is undefined. -/
def aiPreprocessTabOnFileIdChange : Option (String → UploadedFile → UploadedFile) :=
  none

/-- DataAnalysisPage renders the preprocess tab with
onFileIdChange = newId => setUploadedFile(prev => { ...prev, file_id: newId }). -/
def preprocessTabOnFileIdChange : Option (String → UploadedFile → UploadedFile) :=
  some (fun newId f => { f with file_id := newId })

/-- Effect of PreprocessTab.handleProcess on the page's working file:
on a successful response carrying new_file_id the tab invokes
onFileIdChange(new_file_id) (guarded by data.new_file_id && onFileIdChange);
on a non-ok response or thrown error it only sets its local error state. -/
def handleProcessUpdate (onFileIdChange : Option (String → UploadedFile → UploadedFile))
    (newFileId : Option String) (f : UploadedFile) : UploadedFile :=
  match newFileId, onFileIdChange with
  | some newId, some cb => if !(newId == "") then cb newId f else f
  | _, _ => f

/-- The working file DataAnalysisPage holds in the C1 scenario. -/
def demoUploadedFile : UploadedFile :=
  { file_id := "F1", filename := "data.csv" }

/-- A successful execute-code response deriving version F2. -/
def demoExecSuccess : ExecuteCodeResponse :=
  { success := true, new_file_id := some "F2", error := none }

end DataCore

namespace Lineage

/-- One node of the dataset version lineage: the version's file id, the
id of the version the producing request ran against (none for uploads),
and the producing operation ("upload", "handle_missing", ...). -/
structure VersionRecord where
  fileId : String
  parent : Option String
  operation : String
deriving DecidableEq, Repr

/-- Modelled from the spec: the Dataset Version Ledger of spec section 4.2
(registerUpload / registerDerivation / currentFileId) is not a reified
object in the frontend source; the current pointer is
DataAnalysisPage's uploadedFile.file_id (set by onDrop on upload and by
onFileIdChange on successful preprocessing), and the version nodes are
the (request file_id, response new_file_id) pairs of the successful
upload/preprocess calls.  This structure reifies that state: current is
the page pointer, records the accumulated version nodes, newest first. -/
structure Ledger where
  current : Option String
  records : List VersionRecord
deriving DecidableEq, Repr

/-- The state before any upload. -/
def emptyLedger : Ledger := { current := none, records := [] }

/-- Ids of all registered versions. -/
def Ledger.ids (L : Ledger) : List String := L.records.map (fun r => r.fileId)

/-- Modelled from the spec: registerUpload (spec 4.2) — creates a root
version and points current at it; fails on a duplicate fileId
(duplicate-upload guard).  The client-side half is DataAnalysisPage.onDrop,
which sets uploadedFile to the upload response. -/
def registerUpload (L : Ledger) (fileId : String) : Option Ledger :=
  if fileId ∈ L.ids then none
  else some { current := some fileId
              records := { fileId := fileId, parent := none, operation := "upload" } :: L.records }

/-- Modelled from the spec: registerDerivation (spec 4.2) — the client
always derives from the current pointer (PreprocessTab posts
body.file_id = fileId, i.e. the page's current id), fails with
OrphanParent when there is no working dataset and with DuplicateVersion
when newFileId already exists, and on success records the child and
advances current to newFileId (DataAnalysisPage.onFileIdChange). -/
def registerDerivation (L : Ledger) (operation newFileId : String) : Option Ledger :=
  match L.current with
  | none => none
  | some parentId =>
      if newFileId ∈ L.ids then none
      else some { current := some newFileId
                  records := { fileId := newFileId, parent := some parentId, operation := operation }
                    :: L.records }

/-- One successful client operation that touches the working dataset. -/
inductive LedgerOp where
  | upload (fileId : String)
  | derive (operation : String) (newFileId : String)
deriving DecidableEq, Repr

/-- The file id produced by an operation. -/
def LedgerOp.fileId : LedgerOp → String
  | LedgerOp.upload f => f
  | LedgerOp.derive _ g => g

/-- Apply one operation; none when the ledger guards reject it. -/
def applyOp (L : Ledger) : LedgerOp → Option Ledger
  | LedgerOp.upload f => registerUpload L f
  | LedgerOp.derive op g => registerDerivation L op g

/-- Apply a whole sequence of operations; none as soon as one fails, so
a some result certifies that every operation in the trace succeeded. -/
def applyTrace (L : Ledger) : List LedgerOp → Option Ledger
  | [] => some L
  | o :: rest =>
      match applyOp L o with
      | some L2 => applyTrace L2 rest
      | none => none

/-- Look up a version record by file id. -/
def findRec (recs : List VersionRecord) (fileId : String) : Option VersionRecord :=
  recs.find? (fun r => r.fileId == fileId)

/-- Fuel-bounded walk up the parent chain: true iff within the given
fuel the chain starting at fileId reaches a root record created by an
upload (parent none, operation "upload"). -/
def rootedFuel (recs : List VersionRecord) : ℕ → String → Bool
  | 0, _ => false
  | fuel + 1, fileId =>
      match findRec recs fileId with
      | none => false
      | some r =>
          match r.parent with
          | none => r.operation == "upload"
          | some p => rootedFuel recs fuel p

/-- Every registered version's parent chain terminates at an
upload-created root (fuel = number of records always suffices when it
holds at all). -/
def allRooted (recs : List VersionRecord) : Bool :=
  recs.all (fun r => rootedFuel recs recs.length r.fileId)

/-- The ledger invariant: the current pointer refers to a registered
version, and every registered version walks to an upload root within
fuel equal to the number of records. -/
def LedgerInv (L : Ledger) : Prop :=
  (∀ c, L.current = some c → c ∈ L.records.map (fun x => x.fileId)) ∧
  (∀ r ∈ L.records, rootedFuel L.records L.records.length r.fileId = true)

/-- The C3 scenario trace: upload F0, then a successful
missing-value-handling derivation producing F1. -/
def demoTrace : List LedgerOp :=
  [LedgerOp.upload "F0", LedgerOp.derive "handle_missing" "F1"]

/-- The ledger state the C3 scenario trace produces. -/
def demoLedger : Ledger :=
  { current := some "F1"
    records := [{ fileId := "F1", parent := some "F0", operation := "handle_missing" },
                { fileId := "F0", parent := none, operation := "upload" }] }

end Lineage

namespace ABTest

/-- The request-relevant state of ABTestTab when runTest fires: the
mandatory selections and the extra test parameters that go into the
request body. -/
structure ABTestParams where
  groupCol : String
  groupA : String
  groupB : String
  metricCol : String
  testType : String
  alpha : ℚ
  oneTailed : Bool
  bootstrap : Bool
deriving DecidableEq, Repr

/-- The guard at the top of runTest:
if (!groupCol || !metricCol || !groupA || !groupB) return;
(empty strings are the falsy values the selects produce). -/
def abMandatoryBound (p : ABTestParams) : Bool :=
  !(p.groupCol == "" || p.metricCol == "" || p.groupA == "" || p.groupB == "")

/-- Number of /api/analysis/ab-test requests one invocation of runTest
issues: 0 when the guard returns early, otherwise exactly the one fetch
in its body. -/
def runTestRemoteCalls (p : ABTestParams) : ℕ :=
  if abMandatoryBound p then 1 else 0

/-- Total remote calls observed when two logically concurrent
invocations of runTest run (e.g. a second request issued while the
first is still pending): the component has no analysis cache and no
pending-request set, so each invocation independently evaluates its own
guard and issues its own fetch. -/
def concurrentRunTestCalls (p q : ABTestParams) : ℕ :=
  runTestRemoteCalls p + runTestRemoteCalls q

/-- Fully-bound A/B test parameters used as a concrete key. -/
def demoABParams : ABTestParams :=
  { groupCol := "variant", groupA := "A", groupB := "B", metricCol := "revenue",
    testType := "ttest", alpha := 1/20, oneTailed := false, bootstrap := false }

end ABTest

namespace ChatCore

/-- Normal form of a failed sendMessage call: user message and error
message appended, error set, isLoading cleared, everything else kept. -/
theorem sendMessage_failure_eq (st : ChatState) (q e nU nA : String) :
    sendMessage st q (RemoteOutcome.failure e) nU nA =
      { messages := st.messages ++ [mkUserMessage q nU, mkErrorMessage e nA]
        isLoading := false
        currentSessionId := st.currentSessionId
        agentSteps := st.agentSteps
        executionOrder := st.executionOrder
        visualizations := st.visualizations
        error := some e } := by
  simp [sendMessage, addMessage]

/-- Normal form of a successful sendMessage call: user and assistant
messages appended, each response field stored iff the source's guard on
it passes, isLoading cleared, error cleared. -/
theorem sendMessage_success_eq (st : ChatState) (q : String) (data : ChatResponse)
    (nU nA : String) :
    sendMessage st q (RemoteOutcome.success data) nU nA =
      { messages := st.messages ++ [mkUserMessage q nU, mkAssistantMessage data nA]
        isLoading := false
        currentSessionId :=
          if jsTruthyStr data.session_id then data.session_id else st.currentSessionId
        agentSteps := data.agent_steps.getD st.agentSteps
        executionOrder := data.execution_order.getD st.executionOrder
        visualizations := data.visualizations.getD st.visualizations
        error := none } := by
  cases hs : data.agent_steps <;> cases ho : data.execution_order <;>
    cases hv : data.visualizations <;>
      by_cases ht : jsTruthyStr data.session_id <;>
        simp [sendMessage, addMessage, hs, ho, hv, ht]

end ChatCore

namespace ChatCore

/-- C4: submitQuery is a no-op when the input text is empty or
whitespace-only, or when a submission is already in flight: the store
state (hence message log length, agentSteps and executionOrder) is
unchanged and sendMessage — the only site issuing the remote call — is
not invoked. -/
theorem submitQuery_blank_or_loading_noop (input : String) (st : ChatState)
    (outcome : RemoteOutcome) (nU nA : String)
    (h : jsTrim input = "" ∨ st.isLoading = true) :
    (handleSubmit input st outcome nU nA).state = st ∧
    (handleSubmit input st outcome nU nA).state.messages.length = st.messages.length ∧
    (handleSubmit input st outcome nU nA).state.agentSteps = st.agentSteps ∧
    (handleSubmit input st outcome nU nA).state.executionOrder = st.executionOrder ∧
    (handleSubmit input st outcome nU nA).remoteCalled = false := by
  have hg : (jsTrim input == "" || st.isLoading) = true := by
    rcases h with h | h <;> simp [h]
  simp [handleSubmit, hg]

/-- Witness for C4 at a whitespace-only input against the initial state. -/
theorem submitQuery_blank_or_loading_noop_witness :
    (jsTrim "   " = "" ∨ initialChatState.isLoading = true) ∧
    (handleSubmit "   " initialChatState (RemoteOutcome.failure "network down") "t1" "t2").state
      = initialChatState := by
  refine ⟨Or.inl (by decide), ?_⟩
  exact (submitQuery_blank_or_loading_noop "   " initialChatState
    (RemoteOutcome.failure "network down") "t1" "t2" (Or.inl (by decide))).1

/-- C5: a failed sendMessage call appends exactly one assistant message,
it has isError set and carries the human-readable error text, the
session-level error field is set, and agentSteps/executionOrder keep the
previous turn's values. -/
theorem sendMessage_failure_appends_one_error (st : ChatState) (q e nU nA : String) :
    (sendMessage st q (RemoteOutcome.failure e) nU nA).messages
        = st.messages ++ [mkUserMessage q nU, mkErrorMessage e nA] ∧
    ((sendMessage st q (RemoteOutcome.failure e) nU nA).messages.drop
        st.messages.length).filter (fun m => m.role == Role.assistant)
        = [mkErrorMessage e nA] ∧
    (mkErrorMessage e nA).isError = true ∧
    (mkErrorMessage e nA).content = "오류가 발생했습니다: " ++ e ∧
    (sendMessage st q (RemoteOutcome.failure e) nU nA).error = some e ∧
    (sendMessage st q (RemoteOutcome.failure e) nU nA).agentSteps = st.agentSteps ∧
    (sendMessage st q (RemoteOutcome.failure e) nU nA).executionOrder = st.executionOrder := by
  rw [sendMessage_failure_eq]
  refine ⟨rfl, ?_, rfl, rfl, rfl, rfl, rfl⟩
  simp [mkUserMessage, mkErrorMessage, List.filter]

/-- C6 counterexample: clearMessages does not clear the error field —
after a reset of demoErrorState the error is still the old message, so
the claim that reset clears the error field is false. -/
theorem clearMessages_keeps_error_cex :
    ¬ ((clearMessages demoErrorState).error = none) := by
  decide

/-- C6 amended: clearMessages clears messages, agentSteps,
executionOrder (and visualizations) and leaves the error field, the
stored session id and the loading flag unchanged. -/
theorem clearMessages_frame (st : ChatState) :
    (clearMessages st).messages = [] ∧
    (clearMessages st).agentSteps = [] ∧
    (clearMessages st).executionOrder = [] ∧
    (clearMessages st).visualizations = [] ∧
    (clearMessages st).error = st.error ∧
    (clearMessages st).currentSessionId = st.currentSessionId ∧
    (clearMessages st).isLoading = st.isLoading := by
  simp [clearMessages]

/-- C7: a successful response carrying a (truthy) sessionId overwrites
the stored one no matter what was stored before (last-write-wins); a
response without a sessionId leaves the stored value unchanged. -/
theorem sessionId_last_write_wins :
    (∀ (st : ChatState) (q : String) (data : ChatResponse) (nU nA sid : String),
      data.session_id = some sid → sid ≠ "" →
      (sendMessage st q (RemoteOutcome.success data) nU nA).currentSessionId = some sid) ∧
    (∀ (st : ChatState) (q : String) (data : ChatResponse) (nU nA : String),
      data.session_id = none →
      (sendMessage st q (RemoteOutcome.success data) nU nA).currentSessionId
        = st.currentSessionId) := by
  constructor
  · intro st q data nU nA sid hs hne
    rw [sendMessage_success_eq]
    simp [jsTruthyStr, hs, hne]
  · intro st q data nU nA hs
    rw [sendMessage_success_eq]
    simp [jsTruthyStr, hs]

/-- Witness for C7: a concrete response with session id S2 overwrites a
stored S1, and a concrete response without one leaves S1 stored. -/
theorem sessionId_last_write_wins_witness :
    (sendMessage demoErrorState "q"
        (RemoteOutcome.success
          { session_id := some "S2", answer := "a", confidence := none,
            agent_steps := none, execution_order := none, visualizations := none })
        "t1" "t2").currentSessionId = some "S2" ∧
    (sendMessage demoErrorState "q"
        (RemoteOutcome.success
          { session_id := none, answer := "a", confidence := none,
            agent_steps := none, execution_order := none, visualizations := none })
        "t1" "t2").currentSessionId = some "S1" := by
  constructor
  · exact sessionId_last_write_wins.1 demoErrorState "q" _ "t1" "t2" "S2" rfl (by decide)
  · exact sessionId_last_write_wins.2 demoErrorState "q" _ "t1" "t2" rfl

end ChatCore

namespace ChatCore

/-- C8: overallConfidence reads the confidence of the most recent
assistant message, is 0 when no assistant message exists, and after a
turn resolving with a single calculator step of confidence 0.9 it reads
0.9. -/
theorem overallConfidence_spec :
    (∀ (messages : List Message) (m : Message) (c : ℚ),
      messages.reverse.find? (fun x => x.role == Role.assistant) = some m →
      m.confidence = some c →
      overallConfidence messages = c) ∧
    (∀ messages : List Message,
      (∀ m ∈ messages, m.role ≠ Role.assistant) →
      overallConfidence messages = 0) ∧
    overallConfidence
      (sendMessage initialChatState "Q1" (RemoteOutcome.success demoChatResponse)
        "t1" "t2").messages = 9/10 := by
  refine ⟨?_, ?_, ?_⟩
  · intro messages m c hfind hconf
    simp [overallConfidence, hfind, hconf]
  · intro messages hnone
    have hfind : messages.reverse.find? (fun x => x.role == Role.assistant) = none := by
      rw [List.find?_eq_none]
      intro m hm
      have := hnone m (List.mem_reverse.mp hm)
      simpa using this
    simp [overallConfidence, hfind]
  · rw [sendMessage_success_eq]
    simp [overallConfidence, initialChatState, demoChatResponse, mkUserMessage,
      mkAssistantMessage, List.find?]

/-- Witness for C8: the general clauses applied to concrete logs — a
one-element assistant log with confidence 0.4, and a user-only log. -/
theorem overallConfidence_spec_witness :
    overallConfidence [demoAssistantMessage] = 2/5 ∧
    overallConfidence [mkUserMessage "hello" "t"] = 0 := by
  constructor
  · exact overallConfidence_spec.1 [demoAssistantMessage] demoAssistantMessage (2/5) rfl rfl
  · exact overallConfidence_spec.2.1 [mkUserMessage "hello" "t"] (by decide)

/-- C10: every completed sendMessage invocation appends exactly two
messages — first the user message carrying the query text, then exactly
one assistant message — and the previously appended messages survive
unchanged as a prefix, so the log grows by exactly 2. -/
theorem sendMessage_appends_two_messages (st : ChatState) (q : String)
    (outcome : RemoteOutcome) (nU nA : String) :
    (sendMessage st q outcome nU nA).messages
        = st.messages ++ [mkUserMessage q nU, turnResponseMessage outcome nA] ∧
    (mkUserMessage q nU).role = Role.user ∧
    (mkUserMessage q nU).content = q ∧
    (turnResponseMessage outcome nA).role = Role.assistant ∧
    (sendMessage st q outcome nU nA).messages.take st.messages.length = st.messages ∧
    (sendMessage st q outcome nU nA).messages.length = st.messages.length + 2 := by
  have hmsgs : (sendMessage st q outcome nU nA).messages
      = st.messages ++ [mkUserMessage q nU, turnResponseMessage outcome nA] := by
    cases outcome with
    | success data => rw [sendMessage_success_eq]; rfl
    | failure e => rw [sendMessage_failure_eq]; rfl
  have hrole : (turnResponseMessage outcome nA).role = Role.assistant := by
    cases outcome <;> rfl
  refine ⟨hmsgs, rfl, rfl, hrole, ?_, ?_⟩
  · rw [hmsgs, List.take_left]
  · rw [hmsgs, List.length_append]
    simp

end ChatCore

namespace ABTest

/-- C9: runTest issues its remote ab-test request exactly when the group
column, both group values and the metric column are all bound; when any
of them is missing the early return blocks the transition locally and no
remote call is made. -/
theorem runTest_requires_mandatory_params (p : ABTestParams) :
    (runTestRemoteCalls p = 1 ↔
      (p.groupCol ≠ "" ∧ p.metricCol ≠ "" ∧ p.groupA ≠ "" ∧ p.groupB ≠ "")) ∧
    (runTestRemoteCalls p = 0 ↔
      (p.groupCol = "" ∨ p.metricCol = "" ∨ p.groupA = "" ∨ p.groupB = "")) := by
  by_cases h1 : p.groupCol = "" <;> by_cases h2 : p.metricCol = "" <;>
    by_cases h3 : p.groupA = "" <;> by_cases h4 : p.groupB = "" <;>
      simp [runTestRemoteCalls, abMandatoryBound, h1, h2, h3, h4]

/-- C2 counterexample: for a concrete fully-bound key, two concurrent
invocations of runTest with the identical (fileId, params) key issue two
remote calls, refuting the claim that at most one outbound call is made
per key. -/
theorem concurrentDuplicate_two_calls_cex :
    ¬ (concurrentRunTestCalls demoABParams demoABParams ≤ 1) := by
  have h : concurrentRunTestCalls demoABParams demoABParams = 2 := by
    simp [concurrentRunTestCalls, runTestRemoteCalls, abMandatoryBound, demoABParams]
  rw [h]
  decide

/-- C2 amended: there is no analysis cache or pending-request set, so
each of two concurrent invocations of runTest with the identical bound
key independently issues its own remote call — two calls total, the
second never attaches to the in-flight first. -/
theorem concurrentDuplicate_each_calls (p : ABTestParams)
    (h : abMandatoryBound p = true) :
    concurrentRunTestCalls p p = 2 := by
  simp [concurrentRunTestCalls, runTestRemoteCalls, h]

/-- Witness for the amended C2 at the concrete key. -/
theorem concurrentDuplicate_each_calls_witness :
    abMandatoryBound demoABParams = true ∧
    concurrentRunTestCalls demoABParams demoABParams = 2 := by
  refine ⟨by decide, concurrentDuplicate_each_calls demoABParams (by decide)⟩

end ABTest

namespace DataCore

/-- C1: a failed executeCode call (thrown error or success=false) never
changes the working file id — but as wired by DataAnalysisPage, which
passes no onFileIdChange prop to AIPreprocessTab, a successful call
returning new_file_id F2 also leaves the pointer at F1, while the same
component under PreprocessTab's wiring would advance it: the success
half of the claim fails on the page wiring. -/
theorem executeCode_pointer_frozen :
    (∀ (cb : Option (String → UploadedFile → UploadedFile)) (e : String)
       (f : UploadedFile), executeCodeUpdate cb (ExecOutcome.thrown e) f = f) ∧
    (∀ (cb : Option (String → UploadedFile → UploadedFile)) (nid err : Option String)
       (f : UploadedFile),
       executeCodeUpdate cb
         (ExecOutcome.response { success := false, new_file_id := nid, error := err }) f
         = f) ∧
    executeCodeUpdate aiPreprocessTabOnFileIdChange
      (ExecOutcome.response demoExecSuccess) demoUploadedFile = demoUploadedFile ∧
    (executeCodeUpdate preprocessTabOnFileIdChange
      (ExecOutcome.response demoExecSuccess) demoUploadedFile).file_id = "F2" := by
  refine ⟨?_, ?_, ?_, ?_⟩
  · intro cb e f
    rfl
  · intro cb nid err f
    cases nid <;> cases cb <;> simp [executeCodeUpdate]
  · decide
  · decide

end DataCore

namespace Lineage

/-- A successful findRec returns a member record with the queried id. -/
theorem findRec_mem {recs : List VersionRecord} {fid : String} {r : VersionRecord}
    (h : findRec recs fid = some r) : r ∈ recs ∧ r.fileId = fid := by
  unfold findRec at h
  have hmem := List.mem_of_find?_eq_some h
  have hp := List.find?_some h
  simp only [beq_iff_eq] at hp
  exact ⟨hmem, hp⟩

/-- The queried id of a successful findRec occurs among the record ids. -/
theorem mem_ids_of_findRec {recs : List VersionRecord} {fid : String}
    {r : VersionRecord} (h : findRec recs fid = some r) :
    fid ∈ recs.map (fun x => x.fileId) := by
  obtain ⟨hm, he⟩ := findRec_mem h
  exact he ▸ List.mem_map_of_mem (fun x => x.fileId) hm

/-- findRec skips a prepended record with a different id. -/
theorem findRec_cons_of_ne {recs : List VersionRecord} {nr : VersionRecord}
    {fid : String} (h : ¬ (nr.fileId = fid)) :
    findRec (nr :: recs) fid = findRec recs fid := by
  unfold findRec
  rw [List.find?_cons_of_neg]
  simp [h]

/-- Walks to an upload root are stable under prepending a record with a
fresh id: the walk only ever looks up ids that already occur. -/
theorem rootedFuel_prepend {recs : List VersionRecord} {nr : VersionRecord}
    (hfresh : nr.fileId ∉ recs.map (fun x => x.fileId)) :
    ∀ (fuel : ℕ) (fid : String), rootedFuel recs fuel fid = true →
      rootedFuel (nr :: recs) fuel fid = true := by
  intro fuel
  induction fuel with
  | zero => intro fid h; simp [rootedFuel] at h
  | succ n ih =>
    intro fid h
    simp only [rootedFuel] at h ⊢
    cases hf : findRec recs fid with
    | none => simp [hf] at h
    | some r =>
      have hne : ¬ (nr.fileId = fid) := by
        intro he
        exact hfresh (he ▸ mem_ids_of_findRec hf)
      simp only [hf] at h
      simp only [findRec_cons_of_ne hne, hf]
      cases hp : r.parent with
      | none => simp only [hp] at h ⊢; exact h
      | some p => simp only [hp] at h ⊢; exact ih p h

/-- Walks to an upload root stay successful with one more unit of fuel. -/
theorem rootedFuel_succ {recs : List VersionRecord} :
    ∀ {fuel : ℕ} {fid : String}, rootedFuel recs fuel fid = true →
      rootedFuel recs (fuel + 1) fid = true := by
  intro fuel
  induction fuel with
  | zero => intro fid h; simp [rootedFuel] at h
  | succ n ih =>
    intro fid h
    simp only [rootedFuel] at h ⊢
    cases hf : findRec recs fid with
    | none => simp [hf] at h
    | some r =>
      simp only [hf] at h ⊢
      cases hp : r.parent with
      | none => simp only [hp] at h ⊢; exact h
      | some p => simp only [hp] at h ⊢; exact ih h

/-- The empty ledger satisfies the invariant. -/
theorem ledgerInv_empty : LedgerInv emptyLedger := by
  constructor
  · intro c h
    simp [emptyLedger] at h
  · intro r hr
    simp [emptyLedger] at hr

/-- A successful operation leaves the pointer at the id it produced. -/
theorem applyOp_current {L L2 : Ledger} {o : LedgerOp}
    (h : applyOp L o = some L2) : L2.current = some o.fileId := by
  cases o with
  | upload f =>
    unfold applyOp registerUpload at h
    by_cases hc : f ∈ L.ids
    · simp [hc] at h
    · simp [hc] at h
      subst h
      rfl
  | derive op g =>
    unfold applyOp registerDerivation at h
    cases hcur : L.current with
    | none => rw [hcur] at h; exact absurd h (by simp)
    | some p =>
      rw [hcur] at h
      by_cases hc : g ∈ L.ids
      · simp [hc] at h
      · simp [hc] at h
        subst h
        rfl

/-- A successful operation preserves the ledger invariant. -/
theorem applyOp_inv {L L2 : Ledger} {o : LedgerOp}
    (hinv : LedgerInv L) (h : applyOp L o = some L2) : LedgerInv L2 := by
  cases o with
  | upload f =>
    unfold applyOp registerUpload at h
    by_cases hc : f ∈ L.ids
    · simp [hc] at h
    · simp [hc] at h
      subst h
      have hfresh : ({ fileId := f, parent := none, operation := "upload" }
          : VersionRecord).fileId ∉ L.records.map (fun x => x.fileId) := hc
      constructor
      · intro c hcur
        simp only [Option.some_inj] at hcur
        subst hcur
        simp
      · intro r hr
        have hfind : findRec
            ({ fileId := f, parent := none, operation := "upload" } :: L.records) f
            = some { fileId := f, parent := none, operation := "upload" } := by
          unfold findRec
          rw [List.find?_cons_of_pos]
          simp
        simp only [List.mem_cons] at hr
        rcases hr with hr | hr
        · subst hr
          simp [rootedFuel, List.length_cons, hfind]
        · have h1 := hinv.2 r hr
          have h2 := rootedFuel_prepend hfresh _ _ h1
          simpa using rootedFuel_succ h2
  | derive op g =>
    unfold applyOp registerDerivation at h
    cases hcur : L.current with
    | none => rw [hcur] at h; exact absurd h (by simp)
    | some p =>
      rw [hcur] at h
      by_cases hc : g ∈ L.ids
      · simp [hc] at h
      · simp [hc] at h
        subst h
        have hfresh : ({ fileId := g, parent := some p, operation := op }
            : VersionRecord).fileId ∉ L.records.map (fun x => x.fileId) := hc
        have hpmem : p ∈ L.records.map (fun x => x.fileId) := hinv.1 p hcur
        obtain ⟨r0, hr0, hr0id⟩ := List.mem_map.mp hpmem
        have hp1 : rootedFuel L.records L.records.length p = true := by
          rw [← hr0id]
          exact hinv.2 r0 hr0
        have hp2 := rootedFuel_prepend hfresh _ _ hp1
        constructor
        · intro c hcur2
          simp only [Option.some_inj] at hcur2
          subst hcur2
          simp
        · intro r hr
          have hfind : findRec
              ({ fileId := g, parent := some p, operation := op } :: L.records) g
              = some { fileId := g, parent := some p, operation := op } := by
            unfold findRec
            rw [List.find?_cons_of_pos]
            simp
          simp only [List.mem_cons] at hr
          rcases hr with hr | hr
          · subst hr
            simp only [List.length_cons, rootedFuel, hfind]
            exact hp2
          · have h1 := hinv.2 r hr
            have h2 := rootedFuel_prepend hfresh _ _ h1
            simpa using rootedFuel_succ h2

/-- A fully successful trace preserves the ledger invariant. -/
theorem applyTrace_inv : ∀ {trace : List LedgerOp} {L L2 : Ledger},
    LedgerInv L → applyTrace L trace = some L2 → LedgerInv L2 := by
  intro trace
  induction trace with
  | nil =>
    intro L L2 hinv h
    simp [applyTrace] at h
    subst h
    exact hinv
  | cons o rest ih =>
    intro L L2 hinv h
    rw [applyTrace] at h
    cases ha : applyOp L o with
    | none => rw [ha] at h; exact absurd h (by simp)
    | some L1 =>
      rw [ha] at h
      exact ih (applyOp_inv hinv ha) h

/-- After a fully successful trace the current pointer is the id
produced by the last operation (or unchanged for the empty trace). -/
theorem applyTrace_current : ∀ {trace : List LedgerOp} {L L2 : Ledger},
    applyTrace L trace = some L2 →
    L2.current = (match trace.getLast? with
                  | some o => some o.fileId
                  | none => L.current) := by
  intro trace
  induction trace with
  | nil =>
    intro L L2 h
    simp [applyTrace] at h
    subst h
    rfl
  | cons o rest ih =>
    intro L L2 h
    rw [applyTrace] at h
    cases ha : applyOp L o with
    | none => rw [ha] at h; exact absurd h (by simp)
    | some L1 =>
      rw [ha] at h
      have hrec := ih h
      cases rest with
      | nil =>
        simp only [List.getLast?_singleton]
        simp only [List.getLast?_nil] at hrec
        rw [hrec]
        exact applyOp_current ha
      | cons r rs =>
        rw [List.getLast?_cons_cons]
        exact hrec

/-- C3: for every fully successful sequence of upload/derivation
operations, the working-dataset pointer equals the file id produced by
the most recent operation, and every registered version's parent chain
terminates at an upload-created root. -/
theorem currentFileId_latest_and_rooted (trace : List LedgerOp) (L : Ledger)
    (happly : applyTrace emptyLedger trace = some L) (hne : trace ≠ []) :
    L.current = some (trace.getLast hne).fileId ∧ allRooted L.records = true := by
  have hinv := applyTrace_inv ledgerInv_empty happly
  have hcur := applyTrace_current happly
  constructor
  · rw [hcur, List.getLast?_eq_getLast trace hne]
  · rw [allRooted, List.all_eq_true]
    intro r hr
    exact hinv.2 r hr

/-- Witness for C3 at the concrete scenario trace. -/
theorem currentFileId_latest_and_rooted_witness :
    demoLedger.current = some ((demoTrace.getLast (by decide)).fileId) ∧
    allRooted demoLedger.records = true :=
  currentFileId_latest_and_rooted demoTrace demoLedger (by decide) (by decide)

end Lineage
